import Mathlib

/-!
Verification of the `my-personal-assistant` repository's query-builder,
LLM-gateway and web-API error-mapping logic, shallowly embedded in Lean.

The embedding mirrors the Python source:
* `core_build_jql_query` embeds `_build_jql_query` in
  `packages/api/src/my_personal_assistant_api/core/jira_client.py`;
* `clients_build_jql_query` embeds `_build_jql_query` in
  `packages/api/src/my_personal_assistant_api/clients/jira_client.py`;
* `llmInit` / `llmGenerate` embed `LLMClient.__init__` / `LLMClient.generate`
  in `src/jira_assistant/llm_client.py`;
* `http_generate_status` / `http_jira_status` embed the exception-to-status
  mapping of `main.py` and `routers/jira.py`.

Python-specific conventions modelled explicitly:
* an optional argument is `Option _`; Python truthiness (`if x:`) on a string
  is `strTruthy`, on a list `listTruthy` (empty string / empty list are falsy);
* `sep.join(xs)` is `pyJoin sep xs`;
* `str.strip()` is `pyStrip`;
* a raised exception is the `.error` branch of an `Except`.
-/

/-- Python truthiness of an `Optional[str]`: `None` and `""` are falsy. -/
def strTruthy : Option String → Bool
  | none => false
  | some s => !(s == "")

/-- Python truthiness of an `Optional[list]`: `None` and `[]` are falsy. -/
def listTruthy : Option (List String) → Bool
  | none => false
  | some l => !l.isEmpty

/-- Python's `sep.join(xs)`. -/
def pyJoin (sep : String) : List String → String
  | [] => ""
  | [a] => a
  | a :: b :: rest => a ++ sep ++ pyJoin sep (b :: rest)

/-- Surround a string with double quotes, as the f-strings `f'"{it}"'` do. -/
def quoteStr (s : String) : String := "\"" ++ s ++ "\""

/-- The status allow-list hard-coded in `core/jira_client.py`. -/
def allowed_statuses : List String :=
  ["To Do", "In Progress", "Done", "Backlog", "Selected for Development"]

/-- The list `jql_parts` accumulated by the first four conditional blocks of
`core/jira_client.py`'s `_build_jql_query` (project, issue types, labels,
assignee), before the status block runs. -/
def core_jql_parts (project_key : Option String) (issue_types : Option (List String))
    (labels : Option (List String)) (assignee : Option String) : List String :=
  let jql_parts : List String := []
  let jql_parts := if strTruthy project_key then
      jql_parts ++ ["project = " ++ project_key.getD ""] else jql_parts
  let jql_parts := if listTruthy issue_types then
      jql_parts ++ ["issueType in (" ++
        pyJoin ", " (List.map quoteStr (issue_types.getD [])) ++ ")"] else jql_parts
  let jql_parts := if listTruthy labels then
      jql_parts ++ ["labels in (" ++
        pyJoin ", " (List.map quoteStr (labels.getD [])) ++ ")"] else jql_parts
  let jql_parts := if strTruthy assignee then
      jql_parts ++ ["assignee = " ++ quoteStr (assignee.getD "")] else jql_parts
  jql_parts

/-- `_build_jql_query` of `core/jira_client.py`: after the first four blocks,
the status block validates a truthy status against `allowed_statuses`,
raising `FilterValidationError` (the `.error` branch) on failure, otherwise
appending the quoted clause; finally the parts are joined with " AND ". -/
def core_build_jql_query (project_key : Option String) (issue_types : Option (List String))
    (labels : Option (List String)) (assignee : Option String) (status : Option String) :
    Except String String :=
  let jql_parts := core_jql_parts project_key issue_types labels assignee
  match status with
  | none => .ok (pyJoin " AND " jql_parts)
  | some s =>
    if s == "" then .ok (pyJoin " AND " jql_parts)
    else if s ∈ allowed_statuses then
      .ok (pyJoin " AND " (jql_parts ++ ["status = " ++ quoteStr s]))
    else
      .error ("Invalid status: \x27" ++ s ++ "\x27. " ++ "Allowed statuses are: " ++
        pyJoin ", " allowed_statuses)

/-- The clause list as the spec words it (section 4.1): one clause per present
field, in the fixed order project, issue-type, labels, assignee, status, with
project unquoted, issue types and labels quoted in input order, assignee and
status quoted. -/
def spec_clauses (project_key : Option String) (issue_types : Option (List String))
    (labels : Option (List String)) (assignee : Option String) (status : Option String) :
    List String :=
  (if strTruthy project_key then ["project = " ++ project_key.getD ""] else [])
  ++ (if listTruthy issue_types then
      ["issueType in (" ++ pyJoin ", " (List.map quoteStr (issue_types.getD [])) ++ ")"]
    else [])
  ++ (if listTruthy labels then
      ["labels in (" ++ pyJoin ", " (List.map quoteStr (labels.getD [])) ++ ")"]
    else [])
  ++ (if strTruthy assignee then ["assignee = " ++ quoteStr (assignee.getD "")] else [])
  ++ (if strTruthy status then ["status = " ++ quoteStr (status.getD "")] else [])

/-- `_build_jql_query` of `clients/jira_client.py`: always starts with the
quoted `issuetype = "<type>"` condition, then conditionally appends labels,
assignee and status conditions; performs no status validation and returns a
plain string (it can raise nothing). -/
def clients_build_jql_query (issue_type : String) (labels : Option (List String))
    (assignee : Option String) (status : Option String) : String :=
  let conditions : List String := ["issuetype = " ++ quoteStr issue_type]
  let conditions := if listTruthy labels then
      conditions ++ ["labels in (" ++
        pyJoin ", " (List.map quoteStr (labels.getD [])) ++ ")"] else conditions
  let conditions := if strTruthy assignee then
      conditions ++ ["assignee = " ++ quoteStr (assignee.getD "")] else conditions
  let conditions := if strTruthy status then
      conditions ++ ["status = " ++ quoteStr (status.getD "")] else conditions
  pyJoin " AND " conditions

/-- The parameters of a single Jira search HTTP request, as assembled by
either fetch-client variant (`None` for a parameter the variant omits). -/
structure SearchRequest where
  jql : String
  startAt : Option Int
  maxResults : Int
  fields : Option String
deriving DecidableEq

/-- The fixed default field list of `search_issues` in `core/jira_client.py`. -/
def core_default_fields : String :=
  "summary,status,assignee,labels,issuetype,priority,reporter,created,updated,duedate,parent"

/-- `search_issues` of `core/jira_client.py`: request parameters built from a
raw JQL string, an optional field list (Python-truthy check; defaulting to the
fixed comma-joined set), a start offset (default 0) and a page size
(default 50). -/
def core_search_issues_request (jql : String) (fields : Option (List String))
    (start_at : Int := 0) (max_results : Int := 50) : SearchRequest :=
  { jql := jql
    startAt := some start_at
    maxResults := max_results
    fields := some (if listTruthy fields then pyJoin "," (fields.getD [])
      else core_default_fields) }

/-- `get_tasks` of `core/jira_client.py`: builds the JQL with the fixed issue
types `["Task", "Sub-task"]` and delegates to `search_issues` with its
defaults, propagating a `FilterValidationError` from the builder. -/
def core_get_tasks_request (project_key : Option String)
    (labels : Option (List String)) (assignee status : Option String)
    (fields : Option (List String)) : Except String SearchRequest :=
  match core_build_jql_query project_key (some ["Task", "Sub-task"]) labels
      assignee status with
  | .error e => .error e
  | .ok jql => .ok (core_search_issues_request jql fields)

/-- `get_tasks` of `clients/jira_client.py`: builds the JQL with the single
issue type `"Task"` and requests `maxResults = 100`, sending neither a
`startAt` nor a `fields` parameter. -/
def clients_get_tasks_request (labels : Option (List String))
    (assignee status : Option String) : SearchRequest :=
  { jql := clients_build_jql_query "Task" labels assignee status
    startAt := none
    maxResults := 100
    fields := none }

/-- `get_epics` of `clients/jira_client.py` (used by the `/jira/epics`
router): issue type `"Epic"`, `maxResults = 100`. -/
def clients_get_epics_request (labels : Option (List String))
    (assignee status : Option String) : SearchRequest :=
  { jql := clients_build_jql_query "Epic" labels assignee status
    startAt := none
    maxResults := 100
    fields := none }

/-- The environment and SDK-construction outcomes observed by
`LLMClient.__init__` in `src/jira_assistant/llm_client.py`: one credential
variable per provider, and for each provider whose credential is (truthily)
present, whether the SDK constructor call succeeds (a failed construction is
logged and skipped, not fatal). -/
structure Env where
  openai_api_key : Option String
  google_cloud_project : Option String
  anthropic_api_key : Option String
  openai_init_ok : Bool
  vertex_init_ok : Bool
  claude_init_ok : Bool

/-- `LLMClient.SUPPORTED_PROVIDERS`. -/
def SUPPORTED_PROVIDERS : List String := ["openai", "vertex", "claude"]

/-- `_initialize_openai` stores a client iff the key is truthy and the SDK
constructor does not raise. -/
def openai_configured (e : Env) : Bool :=
  strTruthy e.openai_api_key && e.openai_init_ok

/-- `_initialize_vertex`, same discipline on `GOOGLE_CLOUD_PROJECT`. -/
def vertex_configured (e : Env) : Bool :=
  strTruthy e.google_cloud_project && e.vertex_init_ok

/-- `_initialize_claude`, same discipline on `ANTHROPIC_API_KEY`. -/
def claude_configured (e : Env) : Bool :=
  strTruthy e.anthropic_api_key && e.claude_init_ok

/-- The keys of `self.clients` in insertion order: the three initializers run
in the fixed order openai, vertex, claude. -/
def configuredProviders (e : Env) : List String :=
  (if openai_configured e then ["openai"] else [])
  ++ (if vertex_configured e then ["vertex"] else [])
  ++ (if claude_configured e then ["claude"] else [])

/-- The state of a constructed `LLMClient`: its configured-provider registry
and the default provider (`next(iter(self.clients.keys()))`). -/
structure LLMState where
  configured : List String
  default_provider : String
deriving DecidableEq

/-- `LLMClient.__init__`: raises `ConfigurationError` (the `.error` branch)
when no provider initialized, otherwise records the registry with the first
configured provider as default. -/
def llmInit (e : Env) : Except String LLMState :=
  match configuredProviders e with
  | [] => .error ("No LLM providers configured. Please set up credentials for "
      ++ "at least one of the supported providers: "
      ++ pyJoin ", " SUPPORTED_PROVIDERS)
  | p :: rest => .ok { configured := p :: rest, default_provider := p }

/-- A Python value as seen by line 187 of `llm_client.py`: either an actual
`str`, or any other value together with its `str()` rendering. -/
inductive PyValue where
  | str (s : String)
  | other (rep : String)
deriving DecidableEq

/-- `str(response)`: a string renders as itself, any other value as its
`str()` rendering. -/
def pyStr : PyValue → String
  | .str s => s
  | .other rep => rep

/-- Python `str` whitespace as used by `str.strip()`. -/
def isPyWhitespace (c : Char) : Bool :=
  (c == ' ') || (c == '\t') || (c == '\n') || (c == '\r')
    || (c == '\x0b') || (c == '\x0c')

/-- Python's `str.strip()`: drop leading and trailing whitespace. -/
def pyStrip (s : String) : String :=
  String.mk (((s.data.dropWhile isPyWhitespace).reverse.dropWhile
    isPyWhitespace).reverse)

/-- Line 187 of `llm_client.py`:
`response.strip() if isinstance(response, str) else str(response)`. -/
def normalizeResponse : PyValue → String
  | .str s => pyStrip s
  | .other rep => rep

/-- The two exception kinds `LLMClient.generate` can raise. -/
inductive PyError where
  | valueError (msg : String)
  | runtimeError (msg : String)
deriving DecidableEq

/-- `LLMClient.generate`: provider selection (`provider or default`, Python
truthiness), the two `ValueError` checks, then the backend call, whose
outcome is passed in as `backendOutcome` (the chain invocation is an
external, opaque service); a backend exception is wrapped in `RuntimeError`. -/
def llmGenerate (st : LLMState) (provider : Option String)
    (backendOutcome : Except String PyValue) : Except PyError String :=
  let selected_provider := match provider with
    | some p => if p == "" then st.default_provider else p
    | none => st.default_provider
  if selected_provider ∉ SUPPORTED_PROVIDERS then
    .error (.valueError ("Unsupported provider: " ++ selected_provider ++ ". "
      ++ "Supported providers are: " ++ pyJoin ", " SUPPORTED_PROVIDERS))
  else if selected_provider ∉ st.configured then
    .error (.valueError ("Provider " ++ selected_provider ++ " is not configured. "
      ++ "Configured providers are: " ++ pyJoin ", " st.configured))
  else
    match backendOutcome with
    | .ok v => .ok (normalizeResponse v)
    | .error m => .error (.runtimeError ("Failed to generate response: " ++ m))

/-- The `/generate` endpoint of `main.py`: 503 when the module-level client
failed to construct, otherwise `ValueError` becomes HTTP 400, `RuntimeError`
becomes HTTP 500, success 200. -/
def http_generate_status (stOpt : Option LLMState) (provider : Option String)
    (backendOutcome : Except String PyValue) : Nat :=
  match stOpt with
  | none => 503
  | some st =>
    match llmGenerate st provider backendOutcome with
    | .ok _ => 200
    | .error (.valueError _) => 400
    | .error (.runtimeError _) => 500

/-- The `/jira/...` routers of `routers/jira.py`: every exception raised
during the fetch becomes HTTP 500, success 200. -/
def http_jira_status (fetchOutcome : Except String (List String)) : Nat :=
  match fetchOutcome with
  | .ok _ => 200
  | .error _ => 500

/-- Pushing a conditional append outside: helper for relating the accumulated
`jql_parts` to the concatenation form of `spec_clauses`. -/
theorem ite_append_push {c : Prop} [Decidable c] (l m : List String) :
    (if c then l ++ m else l) = l ++ (if c then m else []) := by
  by_cases h : c <;> simp [h]

theorem core_jql_parts_eq_spec (project_key : Option String)
    (issue_types : Option (List String)) (labels : Option (List String))
    (assignee : Option String) :
    core_jql_parts project_key issue_types labels assignee
      = spec_clauses project_key issue_types labels assignee none := by
  unfold core_jql_parts spec_clauses
  by_cases h1 : strTruthy project_key = true <;>
    by_cases h2 : listTruthy issue_types = true <;>
      by_cases h3 : listTruthy labels = true <;>
        by_cases h4 : strTruthy assignee = true <;>
          simp [h1, h2, h3, h4] <;> rfl

theorem pyJoin_append_singleton_of_ne_nil (sep c : String) :
    ∀ l : List String, l ≠ [] → pyJoin sep (l ++ [c]) = pyJoin sep l ++ sep ++ c := by
  intro l
  induction l with
  | nil => simp
  | cons a l IH =>
    intro _
    cases l with
    | nil => rfl
    | cons b l2 =>
      have h2 : b :: l2 ≠ [] := by simp
      show a ++ sep ++ pyJoin sep ((b :: l2) ++ [c]) = pyJoin sep (a :: b :: l2) ++ sep ++ c
      rw [IH h2]
      show a ++ sep ++ (pyJoin sep (b :: l2) ++ sep ++ c)
        = a ++ sep ++ pyJoin sep (b :: l2) ++ sep ++ c
      simp [String.append_assoc]

theorem pyJoin_singleton_suffix (sep c : String) (l : List String) :
    ∃ r, pyJoin sep (l ++ [c]) = r ++ c := by
  cases l with
  | nil =>
    refine ⟨"", ?_⟩
    cases c
    rfl
  | cons a l2 =>
    rw [pyJoin_append_singleton_of_ne_nil sep c (a :: l2) (by simp)]
    exact ⟨pyJoin sep (a :: l2) ++ sep, rfl⟩

/-- For a nonempty status, `spec_clauses` ends with the quoted status clause. -/
theorem spec_clauses_some_status (project_key : Option String)
    (issue_types labels : Option (List String)) (assignee : Option String)
    (s : String) (hs : s ≠ "") :
    spec_clauses project_key issue_types labels assignee (some s)
      = spec_clauses project_key issue_types labels assignee none
          ++ ["status = " ++ quoteStr s] := by
  unfold spec_clauses
  simp [strTruthy, hs]

/-- For an absent-by-truthiness status, the status clause of `spec_clauses`
is empty. -/
theorem spec_clauses_empty_status (project_key : Option String)
    (issue_types labels : Option (List String)) (assignee : Option String) :
    spec_clauses project_key issue_types labels assignee (some "")
      = spec_clauses project_key issue_types labels assignee none := by
  unfold spec_clauses
  simp [strTruthy]

/-- C1: on every Filter Set whose status (when truthily present) passes the
allow-list check, `_build_jql_query` of `core/jira_client.py` returns exactly
the " AND "-join of the clauses of the present fields in the fixed order
project, issue-type, labels, assignee, status (`spec_clauses`); in particular
the all-absent Filter Set yields the empty string. -/
theorem core_build_jql_query_matches_spec (project_key : Option String)
    (issue_types labels : Option (List String)) (assignee status : Option String)
    (hval : ∀ s, status = some s → s ≠ "" → s ∈ allowed_statuses) :
    core_build_jql_query project_key issue_types labels assignee status
      = .ok (pyJoin " AND "
          (spec_clauses project_key issue_types labels assignee status))
    ∧ core_build_jql_query none none none none none = .ok "" := by
  refine ⟨?_, rfl⟩
  unfold core_build_jql_query
  rw [core_jql_parts_eq_spec]
  cases status with
  | none => rfl
  | some s =>
    by_cases hs : s = ""
    · subst hs
      simp [spec_clauses_empty_status]
    · have hmem : s ∈ allowed_statuses := hval s rfl hs
      have hbeq : (s == "") = false := by simp [hs]
      simp [hbeq, hmem, spec_clauses_some_status project_key issue_types labels assignee s hs]

/-- C1 witness: the theorem applied to a concrete Filter Set with every field
present and a valid status. -/
theorem core_build_jql_query_matches_spec_witness :
    core_build_jql_query (some "PROJ") (some ["Bug"]) (some ["frontend"])
        (some "alice") (some "Done")
      = .ok (pyJoin " AND " (spec_clauses (some "PROJ") (some ["Bug"])
          (some ["frontend"]) (some "alice") (some "Done"))) :=
  (core_build_jql_query_matches_spec (some "PROJ") (some ["Bug"]) (some ["frontend"])
    (some "alice") (some "Done") (by intro s hs hne; cases hs; decide)).1

/-- C2: `_build_jql_query` of `core/jira_client.py` fails iff a (truthily
supplied, i.e. nonempty) status outside the allow-list is given; on that path
the error message carries the invalid value and the full allow-list and no
string is returned; every allow-listed status (including "Backlog") is
accepted and the output ends with the quoted clause `status = "<value>"`. -/
theorem core_status_allowlist_validation (project_key : Option String)
    (issue_types labels : Option (List String)) (assignee status : Option String) :
    ((∃ e, core_build_jql_query project_key issue_types labels assignee status
          = .error e)
        ↔ ∃ s, status = some s ∧ s ≠ "" ∧ s ∉ allowed_statuses)
    ∧ pyJoin ", " allowed_statuses
        = "To Do, In Progress, Done, Backlog, Selected for Development"
    ∧ (∀ s, s ≠ "" → s ∉ allowed_statuses →
        core_build_jql_query project_key issue_types labels assignee (some s)
          = .error ("Invalid status: \x27" ++ s ++ "\x27. "
              ++ "Allowed statuses are: " ++ pyJoin ", " allowed_statuses))
    ∧ (∀ s, s ∈ allowed_statuses →
        ∃ q r, core_build_jql_query project_key issue_types labels assignee (some s)
            = .ok q
          ∧ q = r ++ ("status = " ++ quoteStr s)) := by
  refine ⟨?_, rfl, ?_, ?_⟩
  · unfold core_build_jql_query
    cases status with
    | none => simp
    | some s =>
      by_cases hs : s = ""
      · subst hs
        simp
      · have hbeq : (s == "") = false := by simp [hs]
        by_cases hmem : s ∈ allowed_statuses
        · simp [hbeq, hmem, hs]
        · simp [hbeq, hmem, hs]
  · intro s hs hmem
    have hbeq : (s == "") = false := by simp [hs]
    unfold core_build_jql_query
    simp [hbeq, hmem]
  · intro s hmem
    have hs : s ≠ "" := by
      rintro rfl
      simp [allowed_statuses] at hmem
    have hbeq : (s == "") = false := by simp [hs]
    unfold core_build_jql_query
    simp only [hbeq, Bool.false_eq_true, if_false, hmem, if_true]
    obtain ⟨r, hr⟩ := pyJoin_singleton_suffix " AND "
      ("status = " ++ quoteStr s)
      (core_jql_parts project_key issue_types labels assignee)
    exact ⟨_, r, rfl, hr⟩

/-- C2 witness: rejection of the non-allow-listed status "Nonexistent" with
the exact message, and acceptance of the boundary status "Backlog". -/
theorem core_status_allowlist_validation_witness :
    core_build_jql_query none none none none (some "Nonexistent")
      = .error ("Invalid status: \x27" ++ "Nonexistent" ++ "\x27. "
          ++ "Allowed statuses are: " ++ pyJoin ", " allowed_statuses)
    ∧ ∃ q r, core_build_jql_query none none none none (some "Backlog") = .ok q
        ∧ q = r ++ ("status = " ++ quoteStr "Backlog") :=
  ⟨(core_status_allowlist_validation none none none none
      (some "Nonexistent")).2.2.1 "Nonexistent" (by decide) (by decide),
   (core_status_allowlist_validation none none none none
      (some "Backlog")).2.2.2 "Backlog" (by decide)⟩

/-- C3: each clause of `_build_jql_query` of `core/jira_client.py` has the
specified shape (project unquoted, issue types / labels quoted in input order,
assignee quoted), and the two concrete scenarios of the spec produce exactly
the specified strings. -/
theorem core_clause_shapes :
    (∀ k : String, k ≠ "" →
      core_build_jql_query (some k) none none none none = .ok ("project = " ++ k))
    ∧ (∀ ts : List String, ts ≠ [] →
      core_build_jql_query none (some ts) none none none
        = .ok ("issueType in (" ++ pyJoin ", " (List.map quoteStr ts) ++ ")"))
    ∧ (∀ ls : List String, ls ≠ [] →
      core_build_jql_query none none (some ls) none none
        = .ok ("labels in (" ++ pyJoin ", " (List.map quoteStr ls) ++ ")"))
    ∧ (∀ a : String, a ≠ "" →
      core_build_jql_query none none none (some a) none
        = .ok ("assignee = " ++ quoteStr a))
    ∧ core_build_jql_query (some "PROJ") none (some ["frontend", "urgent"]) none
        (some "To Do")
      = .ok "project = PROJ AND labels in (\"frontend\", \"urgent\") AND status = \"To Do\""
    ∧ core_build_jql_query none (some ["Bug"]) none none none
      = .ok "issueType in (\"Bug\")" := by
  refine ⟨?_, ?_, ?_, ?_, rfl, rfl⟩
  · intro k hk
    simp [core_build_jql_query, core_jql_parts, strTruthy, listTruthy, hk, pyJoin]
  · intro ts hts
    simp [core_build_jql_query, core_jql_parts, strTruthy, listTruthy, hts, pyJoin]
  · intro ls hls
    simp [core_build_jql_query, core_jql_parts, strTruthy, listTruthy, hls, pyJoin]
  · intro a ha
    simp [core_build_jql_query, core_jql_parts, strTruthy, listTruthy, ha, pyJoin]

/-- C3 witness: each single-field clause shape evaluated at a concrete input. -/
theorem core_clause_shapes_witness :
    core_build_jql_query (some "PROJ") none none none none = .ok ("project = " ++ "PROJ")
    ∧ core_build_jql_query none (some ["Task", "Bug"]) none none none
      = .ok ("issueType in (" ++ pyJoin ", " (List.map quoteStr ["Task", "Bug"]) ++ ")")
    ∧ core_build_jql_query none none (some ["urgent"]) none none
      = .ok ("labels in (" ++ pyJoin ", " (List.map quoteStr ["urgent"]) ++ ")")
    ∧ core_build_jql_query none none none (some "alice") none
      = .ok ("assignee = " ++ quoteStr "alice") :=
  ⟨core_clause_shapes.1 "PROJ" (by decide),
   core_clause_shapes.2.1 ["Task", "Bug"] (by decide),
   core_clause_shapes.2.2.1 ["urgent"] (by decide),
   core_clause_shapes.2.2.2.1 "alice" (by decide)⟩

theorem string_append_ne_of_prefix (x y : String) :
    "issueT" ++ x ≠ "issuet" ++ y := by
  intro h
  have h2 : ("issueT" ++ x).data = ("issuet" ++ y).data := congrArg String.data h
  rw [String.data_append, String.data_append] at h2
  have hl : "issueT".data = ['i', 's', 's', 'u', 'e', 'T'] := rfl
  have hr : "issuet".data = ['i', 's', 's', 'u', 'e', 't'] := rfl
  rw [hl, hr] at h2
  simp at h2

theorem pyJoin_cons_prefix (sep h : String) (t : List String) :
    ∃ r, pyJoin sep (h :: t) = h ++ r := by
  cases t with
  | nil =>
    refine ⟨"", ?_⟩
    simp [pyJoin]
  | cons b t2 =>
    exact ⟨sep ++ pyJoin sep (b :: t2), by simp [pyJoin, String.append_assoc]⟩

/-- Any string `_build_jql_query` of `core/jira_client.py` returns is the
" AND "-join of the four accumulated parts plus a possible status clause. -/
theorem core_build_ok_out (project_key : Option String)
    (issue_types labels : Option (List String)) (assignee status : Option String)
    (q : String)
    (h : core_build_jql_query project_key issue_types labels assignee status = .ok q) :
    ∃ tail, q = pyJoin " AND "
      (core_jql_parts project_key issue_types labels assignee ++ tail) := by
  unfold core_build_jql_query at h
  cases status with
  | none =>
    cases h
    exact ⟨[], by simp⟩
  | some s =>
    dsimp only at h
    by_cases hs : (s == "") = true
    · rw [if_pos hs] at h
      cases h
      exact ⟨[], by simp⟩
    · rw [if_neg hs] at h
      by_cases hm : s ∈ allowed_statuses
      · rw [if_pos hm] at h
        cases h
        exact ⟨["status = " ++ quoteStr s], rfl⟩
      · rw [if_neg hm] at h
        cases h

/-- The condition list of `clients/jira_client.py`'s builder always starts
with the quoted issue-type condition. -/
theorem clients_build_prefix (issue_type : String) (labels : Option (List String))
    (assignee status : Option String) :
    ∃ r, clients_build_jql_query issue_type labels assignee status
      = ("issuetype = " ++ quoteStr issue_type) ++ r := by
  unfold clients_build_jql_query
  by_cases h2 : listTruthy labels = true <;>
    by_cases h3 : strTruthy assignee = true <;>
      by_cases h4 : strTruthy status = true <;>
        · simp only [h2, h3, h4, if_true, if_false, List.cons_append,
            List.nil_append, List.append_assoc, List.singleton_append]
          exact pyJoin_cons_prefix " AND " _ _

/-- C4: the two fetch-client variants are not equivalent. For identical
caller-supplied filters, whenever `get_tasks` of `core/jira_client.py`
produces a request at all, that request has page size 50 and a JQL built from
the issue types `["Task", "Sub-task"]`, while `get_tasks` of
`clients/jira_client.py` has page size 100 and a JQL built from `"Task"`
alone; the two requests differ in both query string and page size. -/
theorem fetch_variants_not_equivalent (labels : Option (List String))
    (assignee status : Option String) (fields : Option (List String))
    (req : SearchRequest)
    (h : core_get_tasks_request none labels assignee status fields = .ok req) :
    req.maxResults = 50
    ∧ (clients_get_tasks_request labels assignee status).maxResults = 100
    ∧ req.jql ≠ (clients_get_tasks_request labels assignee status).jql
    ∧ req ≠ clients_get_tasks_request labels assignee status := by
  unfold core_get_tasks_request at h
  cases hb : core_build_jql_query none (some ["Task", "Sub-task"]) labels
      assignee status with
  | error e =>
    rw [hb] at h
    cases h
  | ok jql =>
    rw [hb] at h
    cases h
    have hparts : ∃ restlist,
        core_jql_parts none (some ["Task", "Sub-task"]) labels assignee
          = "issueType in (\"Task\", \"Sub-task\")" :: restlist := by
      unfold core_jql_parts
      by_cases h3 : listTruthy labels = true <;>
        by_cases h4 : strTruthy assignee = true <;>
          · simp only [h3, h4, if_true, if_false,
              show strTruthy none = false from rfl,
              show listTruthy (some ["Task", "Sub-task"]) = true from rfl,
              Bool.false_eq_true, List.cons_append, List.nil_append,
              List.append_assoc, List.singleton_append]
            exact ⟨_, rfl⟩
    obtain ⟨restlist, hpl⟩ := hparts
    obtain ⟨tail, htail⟩ := core_build_ok_out none (some ["Task", "Sub-task"])
      labels assignee status jql hb
    have hcore : ∃ r, jql = "issueType in (\"Task\", \"Sub-task\")" ++ r := by
      rw [htail, hpl, List.cons_append]
      exact pyJoin_cons_prefix " AND " _ _
    obtain ⟨r1, hr1⟩ := hcore
    obtain ⟨r2, hr2⟩ := clients_build_prefix "Task" labels assignee status
    have hne : (core_search_issues_request jql fields).jql
        ≠ (clients_get_tasks_request labels assignee status).jql := by
      show jql ≠ clients_build_jql_query "Task" labels assignee status
      rw [hr1, hr2]
      have e1 : ("issueType in (\"Task\", \"Sub-task\")" : String)
          = "issueT" ++ "ype in (\"Task\", \"Sub-task\")" := rfl
      have e2 : ("issuetype = " ++ quoteStr "Task" : String)
          = "issuet" ++ "ype = \"Task\"" := rfl
      rw [e1, e2, String.append_assoc, String.append_assoc]
      exact string_append_ne_of_prefix _ _
    refine ⟨rfl, rfl, hne, ?_⟩
    intro heq
    exact hne (congrArg SearchRequest.jql heq)

/-- C4 witness: the divergence evaluated at the empty filter set. -/
theorem fetch_variants_not_equivalent_witness :
    core_get_tasks_request none none none none none
      = .ok (core_search_issues_request "issueType in (\"Task\", \"Sub-task\")" none)
    ∧ (core_search_issues_request "issueType in (\"Task\", \"Sub-task\")" none).maxResults
      = 50
    ∧ (clients_get_tasks_request none none none).maxResults = 100
    ∧ (core_search_issues_request "issueType in (\"Task\", \"Sub-task\")" none).jql
      ≠ (clients_get_tasks_request none none none).jql :=
  have h : core_get_tasks_request none none none none none
      = .ok (core_search_issues_request "issueType in (\"Task\", \"Sub-task\")" none) := rfl
  have hmain := fetch_variants_not_equivalent none none none none
    (core_search_issues_request "issueType in (\"Task\", \"Sub-task\")" none) h
  ⟨h, hmain.1, hmain.2.1, hmain.2.2.1⟩

/-- C8: `search_issues` of `core/jira_client.py` defaults to offset 0 and
page size 50; with no (truthy) field list it requests exactly the fixed
comma-joined field set summary, status, assignee, labels, issuetype,
priority, reporter, created, updated, duedate, parent; with an explicit
nonempty list it requests exactly those fields comma-joined. -/
theorem core_search_issues_defaults (jql : String) :
    core_search_issues_request jql none
      = { jql := jql, startAt := some 0, maxResults := 50,
          fields := some core_default_fields }
    ∧ core_default_fields
      = pyJoin "," ["summary", "status", "assignee", "labels", "issuetype",
          "priority", "reporter", "created", "updated", "duedate", "parent"]
    ∧ (∀ fs : List String, fs ≠ [] →
        core_search_issues_request jql (some fs)
          = { jql := jql, startAt := some 0, maxResults := 50,
              fields := some (pyJoin "," fs) }) := by
  refine ⟨rfl, rfl, ?_⟩
  intro fs hfs
  unfold core_search_issues_request
  simp [listTruthy, hfs]

/-- C8 witness: the defaults and an explicit field selection evaluated on a
concrete query. -/
theorem core_search_issues_defaults_witness :
    core_search_issues_request "project = PROJ" none
      = { jql := "project = PROJ", startAt := some 0, maxResults := 50,
          fields := some core_default_fields }
    ∧ core_search_issues_request "project = PROJ" (some ["summary", "status"])
      = { jql := "project = PROJ", startAt := some 0, maxResults := 50,
          fields := some (pyJoin "," ["summary", "status"]) } :=
  ⟨(core_search_issues_defaults "project = PROJ").1,
   (core_search_issues_defaults "project = PROJ").2.2 ["summary", "status"]
     (by decide)⟩

/-- C10: the builder actually used by the web routers
(`clients/jira_client.py`) performs no status allow-list validation: for
every nonempty status string whatsoever it appends the clause
`status = "<status>"` verbatim to the status-free query and can raise
nothing (it is a total `String`-valued function), and the `/jira/epics`
request carries exactly that query. -/
theorem clients_builder_no_status_validation (issue_type : String)
    (labels : Option (List String)) (assignee : Option String) (s : String)
    (hs : s ≠ "") :
    clients_build_jql_query issue_type labels assignee (some s)
      = clients_build_jql_query issue_type labels assignee none
          ++ " AND " ++ ("status = " ++ quoteStr s)
    ∧ (clients_get_epics_request labels assignee (some s)).jql
      = clients_build_jql_query "Epic" labels assignee (some s) := by
  refine ⟨?_, rfl⟩
  unfold clients_build_jql_query
  have hstat : strTruthy (some s) = true := by simp [strTruthy, hs]
  simp only [hstat, if_true, show strTruthy (none : Option String) = false from rfl,
    Bool.false_eq_true, if_false]
  by_cases h2 : listTruthy labels = true <;>
    by_cases h3 : strTruthy assignee = true <;>
      · simp only [h2, h3, if_true, if_false, Bool.false_eq_true]
        exact pyJoin_append_singleton_of_ne_nil " AND " _ _ (by simp)

/-- C10 witness: a status far outside the allow-list is emitted verbatim by
the clients-variant builder, with no error possible. -/
theorem clients_builder_no_status_validation_witness :
    (clients_build_jql_query "Epic" none none (some "Random")
        = clients_build_jql_query "Epic" none none none ++ " AND "
            ++ ("status = " ++ quoteStr "Random")
      ∧ (clients_get_epics_request none none (some "Random")).jql
        = clients_build_jql_query "Epic" none none (some "Random"))
    ∧ "Random" ∉ allowed_statuses :=
  ⟨clients_builder_no_status_validation "Epic" none none "Random" (by decide),
   by decide⟩

/-- C5: `LLMClient` construction fails with a `ConfigurationError` naming all
supported providers (openai, vertex, claude) exactly when zero backends
initialize successfully (credential absent or SDK construction failed for
each), and succeeds whenever at least one initializes. -/
theorem llm_init_configuration (e : Env) :
    (configuredProviders e = [] →
      llmInit e = .error ("No LLM providers configured. Please set up credentials for "
        ++ "at least one of the supported providers: "
        ++ pyJoin ", " SUPPORTED_PROVIDERS))
    ∧ pyJoin ", " SUPPORTED_PROVIDERS = "openai, vertex, claude"
    ∧ (configuredProviders e ≠ [] → ∃ st, llmInit e = .ok st
        ∧ st.configured = configuredProviders e)
    ∧ (configuredProviders e = []
        ↔ openai_configured e = false ∧ vertex_configured e = false
          ∧ claude_configured e = false) := by
  refine ⟨?_, rfl, ?_, ?_⟩
  · intro h
    unfold llmInit
    rw [h]
  · intro h
    cases hc : configuredProviders e with
    | nil => exact absurd hc h
    | cons p rest =>
      refine ⟨⟨p :: rest, p⟩, ?_, rfl⟩
      unfold llmInit
      rw [hc]
  · unfold configuredProviders
    by_cases h1 : openai_configured e = true <;>
      by_cases h2 : vertex_configured e = true <;>
        by_cases h3 : claude_configured e = true <;>
          simp [h1, h2, h3]

/-- C5 witness: construction with no credentials fails with the full message;
with only an OpenAI key it succeeds. -/
theorem llm_init_configuration_witness :
    llmInit ⟨none, none, none, true, true, true⟩
      = .error ("No LLM providers configured. Please set up credentials for "
          ++ "at least one of the supported providers: "
          ++ pyJoin ", " SUPPORTED_PROVIDERS)
    ∧ ∃ st, llmInit ⟨some "sk-123", none, none, true, true, true⟩ = .ok st
        ∧ st.configured
          = configuredProviders ⟨some "sk-123", none, none, true, true, true⟩ :=
  ⟨(llm_init_configuration ⟨none, none, none, true, true, true⟩).1 rfl,
   (llm_init_configuration ⟨some "sk-123", none, none, true, true, true⟩).2.2.1
     (by decide)⟩

/-- C6: for an explicit backend name, `LLMClient.generate` raises a
`ValueError` naming the supported backends when the name is unsupported, a
`ValueError` naming the configured backends when the name is supported but
not configured, and no provider-selection `ValueError` otherwise. -/
theorem llm_generate_provider_errors (st : LLMState) (p : String)
    (bo : Except String PyValue) (hp : p ≠ "") :
    (p ∉ SUPPORTED_PROVIDERS →
      llmGenerate st (some p) bo
        = .error (.valueError ("Unsupported provider: " ++ p ++ ". "
            ++ "Supported providers are: " ++ pyJoin ", " SUPPORTED_PROVIDERS)))
    ∧ (p ∈ SUPPORTED_PROVIDERS → p ∉ st.configured →
      llmGenerate st (some p) bo
        = .error (.valueError ("Provider " ++ p ++ " is not configured. "
            ++ "Configured providers are: " ++ pyJoin ", " st.configured)))
    ∧ (p ∈ SUPPORTED_PROVIDERS → p ∈ st.configured →
      ∀ m, llmGenerate st (some p) bo ≠ .error (.valueError m)) := by
  have hbeq : (p == "") = false := by simp [hp]
  refine ⟨?_, ?_, ?_⟩
  · intro h
    unfold llmGenerate
    simp [hbeq, h]
  · intro h1 h2
    unfold llmGenerate
    simp [hbeq, h1, h2]
  · intro h1 h2 m
    unfold llmGenerate
    simp only [hbeq, Bool.false_eq_true, if_false]
    rw [if_neg (by simp [h1]), if_neg (by simp [h2])]
    cases bo <;> simp

/-- C6 witness: an unsupported name, a supported-but-unconfigured name, and a
configured name, against a registry holding only openai. -/
theorem llm_generate_provider_errors_witness :
    llmGenerate ⟨["openai"], "openai"⟩ (some "foo") (.ok (.str "hello"))
      = .error (.valueError ("Unsupported provider: " ++ "foo" ++ ". "
          ++ "Supported providers are: " ++ pyJoin ", " SUPPORTED_PROVIDERS))
    ∧ llmGenerate ⟨["openai"], "openai"⟩ (some "claude") (.ok (.str "hello"))
      = .error (.valueError ("Provider " ++ "claude" ++ " is not configured. "
          ++ "Configured providers are: " ++ pyJoin ", " ["openai"]))
    ∧ ∀ m, llmGenerate ⟨["openai"], "openai"⟩ (some "openai") (.ok (.str "hello"))
        ≠ .error (.valueError m) :=
  ⟨(llm_generate_provider_errors ⟨["openai"], "openai"⟩ "foo"
      (.ok (.str "hello")) (by decide)).1 (by decide),
   (llm_generate_provider_errors ⟨["openai"], "openai"⟩ "claude"
      (.ok (.str "hello")) (by decide)).2.1 (by decide) (by decide),
   (llm_generate_provider_errors ⟨["openai"], "openai"⟩ "openai"
      (.ok (.str "hello")) (by decide)).2.2 (by decide) (by decide)⟩

/-- C7 counterexample: a successful generation whose backend response is not
a `str` is returned as its unmodified `str()` rendering, not trimmed — here
the rendering " x " keeps its surrounding whitespace although its trimmed
form is "x". -/
theorem llm_generate_trim_counterexample :
    llmGenerate ⟨["openai"], "openai"⟩ none (.ok (.other " x ")) = .ok " x "
    ∧ pyStrip (pyStr (.other " x ")) = "x"
    ∧ (" x " : String) ≠ "x" := by
  refine ⟨rfl, by decide, by decide⟩

/-- C7 amended: for every successful generation call, the returned text is
the backend response with leading and trailing whitespace removed when that
response is a string, and the unmodified `str()` rendering when it is not. -/
theorem llm_generate_normalization (st : LLMState) (provider : Option String)
    (v : PyValue) (t : String)
    (h : llmGenerate st provider (.ok v) = .ok t) :
    t = normalizeResponse v
    ∧ (∀ s, v = .str s → t = pyStrip s)
    ∧ (∀ rep, v = .other rep → t = rep) := by
  have ht : t = normalizeResponse v := by
    unfold llmGenerate at h
    dsimp only at h
    split at h
    · cases h
    · split at h
      · cases h
      · cases h
        rfl
  exact ⟨ht, fun s hv => by rw [ht, hv]; rfl, fun rep hv => by rw [ht, hv]; rfl⟩

/-- C7 amended witness: a string response is stripped. -/
theorem llm_generate_normalization_witness :
    ("hello" : String) = normalizeResponse (.str " hello ")
    ∧ (∀ s, PyValue.str " hello " = .str s → ("hello" : String) = pyStrip s)
    ∧ (∀ rep, PyValue.str " hello " = .other rep → ("hello" : String) = rep) :=
  llm_generate_normalization ⟨["openai"], "openai"⟩ none (.str " hello ")
    "hello" rfl

/-- C9 counterexample: requesting the supported-but-unconfigured provider
"claude" on `/generate` yields HTTP 400 — a client-error status — whereas the
claim asserts that an unconfigured provider produces a server-error status. -/
theorem http_unconfigured_provider_counterexample :
    http_generate_status (some ⟨["openai"], "openai"⟩) (some "claude")
        (.ok (.str "hi")) = 400
    ∧ ¬ 500 ≤ http_generate_status (some ⟨["openai"], "openai"⟩) (some "claude")
        (.ok (.str "hi")) :=
  ⟨rfl, by decide⟩

/-- C9 amended: `/generate` maps an uninitialized client to 503 and
`ValueError` — including the unsupported-provider and unconfigured-provider
failures — to the client-error status 400, `RuntimeError` (wrapped backend
and transport failures) to the server-error status 500, success to 200; the
Jira routers map every fetch failure to the server-error status 500. -/
theorem http_status_mapping (stOpt : Option LLMState) (provider : Option String)
    (bo : Except String PyValue) (fetchOutcome : Except String (List String)) :
    (stOpt = none → http_generate_status stOpt provider bo = 503)
    ∧ (∀ st m, stOpt = some st →
        llmGenerate st provider bo = .error (.valueError m) →
        http_generate_status stOpt provider bo = 400)
    ∧ (∀ st m, stOpt = some st →
        llmGenerate st provider bo = .error (.runtimeError m) →
        http_generate_status stOpt provider bo = 500)
    ∧ (∀ st t, stOpt = some st → llmGenerate st provider bo = .ok t →
        http_generate_status stOpt provider bo = 200)
    ∧ (∀ e, fetchOutcome = .error e → http_jira_status fetchOutcome = 500) := by
  refine ⟨?_, ?_, ?_, ?_, ?_⟩
  · rintro rfl
    rfl
  · rintro st m rfl hgen
    unfold http_generate_status
    dsimp only
    rw [hgen]
  · rintro st m rfl hgen
    unfold http_generate_status
    dsimp only
    rw [hgen]
  · rintro st t rfl hgen
    unfold http_generate_status
    dsimp only
    rw [hgen]
  · rintro e rfl
    rfl

/-- C9 amended witness: each status branch evaluated concretely. -/
theorem http_status_mapping_witness :
    http_generate_status none none (.ok (.str "hi")) = 503
    ∧ http_generate_status (some ⟨["openai"], "openai"⟩) (some "vertex")
        (.ok (.str "hi")) = 400
    ∧ http_generate_status (some ⟨["openai"], "openai"⟩) none
        (.error "boom") = 500
    ∧ http_generate_status (some ⟨["openai"], "openai"⟩) none
        (.ok (.str "hi")) = 200
    ∧ http_jira_status (.error "boom") = 500 :=
  ⟨(http_status_mapping none none (.ok (.str "hi")) (.ok [])).1 rfl,
   (http_status_mapping (some ⟨["openai"], "openai"⟩) (some "vertex")
      (.ok (.str "hi")) (.ok [])).2.1 ⟨["openai"], "openai"⟩ _ rfl rfl,
   (http_status_mapping (some ⟨["openai"], "openai"⟩) none
      (.error "boom") (.ok [])).2.2.1 ⟨["openai"], "openai"⟩ _ rfl rfl,
   (http_status_mapping (some ⟨["openai"], "openai"⟩) none
      (.ok (.str "hi")) (.ok [])).2.2.2.1 ⟨["openai"], "openai"⟩ _ rfl rfl,
   (http_status_mapping none none (.ok (.str "hi"))
      (.error "boom")).2.2.2.2 "boom" rfl⟩
